import Mathlib

/-!
Shallow embedding of chips/api/api.py: the netlist data model (Chip, Wire,
Input, Output, Component, instance construction) and the verilog elaboration
routine generate_verilog. Python exceptions are modelled explicitly as
values: C2CHIPError carries its message, and AttributeError models a read of
an attribute the object does not have (duck typing failures). Mutation of
shared net objects is modelled with an arena: the chip owns a list of nets,
and the wires, inputs, outputs lists as well as instance port lists hold
indices into that arena. The id builtin of Python (a transient memory
address) is modelled as an explicit pyId value supplied at object creation.
File output is modelled as the returned string: an exception before any
write corresponds to an error result carrying no text.
-/

set_option autoImplicit false

namespace ChipsApi

/-- Exceptions api.py can raise: C2CHIPError with its message string, or a
Python AttributeError from reading a missing attribute. -/
inductive PyErr where
  | c2chip (msg : String)
  | attributeError (msg : String)
  deriving Repr, DecidableEq

/-- Decidable equality of call results, used to evaluate the embedding at
concrete chips. -/
instance : DecidableEq (Except PyErr String) := fun a b =>
  match a, b with
  | .error e1, .error e2 =>
    if h : e1 = e2 then .isTrue (by rw [h]) else .isFalse (by intro hc; cases hc; exact h rfl)
  | .ok t1, .ok t2 =>
    if h : t1 = t2 then .isTrue (by rw [h]) else .isFalse (by intro hc; cases hc; exact h rfl)
  | .error _, .ok _ => .isFalse (by intro hc; cases hc)
  | .ok _, .error _ => .isFalse (by intro hc; cases hc)

/-- A net object. Wire (class Wire) has both source and sink attributes,
Input (class Input) has only sink, Output (class Output) has only source.
A bound slot stores the registration index of the occupying instance. -/
inductive Net where
  | wire (name : String) (source sink : Option Nat)
  | input (name : String) (sink : Option Nat)
  | output (name : String) (source : Option Nat)
  deriving Repr, DecidableEq

/-- The name attribute, present on every net variant. -/
def Net.name : Net → String
  | .wire n _ _ => n
  | .input n _ => n
  | .output n _ => n

/-- Reading the source attribute; Input objects lack it (AttributeError). -/
def Net.getSource : Net → Except PyErr (Option Nat)
  | .wire _ s _ => .ok s
  | .input _ _ => .error (.attributeError "Input object has no attribute source")
  | .output _ s => .ok s

/-- Reading the sink attribute; Output objects lack it (AttributeError). -/
def Net.getSink : Net → Except PyErr (Option Nat)
  | .wire _ _ sk => .ok sk
  | .input _ sk => .ok sk
  | .output _ _ => .error (.attributeError "Output object has no attribute sink")

/-- A component descriptor as produced by the external compiler: a name and
the ordered input and output port name lists (api.py line 100). -/
structure Component where
  name : String
  inputs : List String
  outputs : List String
  deriving Repr, DecidableEq

/-- A registered component instance: the Python object identity id(self)
as pyId, the component descriptor, and the input and output net indices. -/
structure Inst where
  pyId : Nat
  component : Component
  inputs : List Nat
  outputs : List Nat
  deriving Repr, DecidableEq

/-- The chip: name plus the instances, wires, inputs, outputs lists, with
net objects held in the nets arena and referenced by index. -/
structure Chip where
  name : String
  instances : List Inst
  wires : List Nat
  inputs : List Nat
  outputs : List Nat
  nets : List Net
  deriving Repr, DecidableEq

/-- Chip.__init__ (api.py lines 18-26): everything starts empty. -/
def Chip.init (name : String) : Chip :=
  { name := name, instances := [], wires := [], inputs := [], outputs := [], nets := [] }

/-- Wire.__init__ (lines 146-151): appends a fresh net with source and sink
unset to chip.wires; its name is wire_ followed by id(self), here pyId.
Returns the updated chip and the index of the new net. -/
def Wire.init (c : Chip) (pyId : Nat) : Chip × Nat :=
  let idx := c.nets.length
  ({ c with nets := c.nets ++ [.wire ("wire_" ++ toString pyId) none none],
            wires := c.wires ++ [idx] }, idx)

/-- Input.__init__ (lines 157-165): appends a named boundary input net with
sink unset to chip.inputs. -/
def Input.init (c : Chip) (name : String) : Chip × Nat :=
  let idx := c.nets.length
  ({ c with nets := c.nets ++ [.input name none],
            inputs := c.inputs ++ [idx] }, idx)

/-- Output.__init__ (lines 171-179): appends a named boundary output net
with source unset to chip.outputs. -/
def Output.init (c : Chip) (name : String) : Chip × Nat :=
  let idx := c.nets.length
  ({ c with nets := c.nets ++ [.output name none],
            outputs := c.outputs ++ [idx] }, idx)

/-- Lines 129-133 for one net: read i.sink (AttributeError on an Output),
raise C2CHIPError if already set, otherwise set it to the instance.
Returns the resulting net and the raised exception if any; on failure the
net is returned unchanged because the raise precedes the assignment. -/
def bindSink (net : Net) (j : Nat) : Net × Option PyErr :=
  match net with
  | .wire n s sk =>
    match sk with
    | some k => (.wire n s (some k), some (.c2chip (n ++ " allready has a sink")))
    | none => (.wire n s (some j), none)
  | .input n sk =>
    match sk with
    | some k => (.input n (some k), some (.c2chip (n ++ " allready has a sink")))
    | none => (.input n (some j), none)
  | .output n s => (.output n s, some (.attributeError "Output object has no attribute sink"))

/-- Lines 135-139 for one net: read i.source (AttributeError on an Input),
raise C2CHIPError if already set, otherwise set it to the instance. The
code writes the message with a doubled has: "%s has allready has a source". -/
def bindSource (net : Net) (j : Nat) : Net × Option PyErr :=
  match net with
  | .wire n s sk =>
    match s with
    | some k => (.wire n (some k) sk, some (.c2chip (n ++ " has allready has a source")))
    | none => (.wire n (some j) sk, none)
  | .output n s =>
    match s with
    | some k => (.output n (some k), some (.c2chip (n ++ " has allready has a source")))
    | none => (.output n (some j), none)
  | .input n sk => (.input n sk, some (.attributeError "Input object has no attribute source"))

/-- One of the two bind loops of _Instance.__init__: bind each listed net in
order with bind1, stopping at the first exception. Binds already performed
stay in the chip (the code performs no rollback). The dangling-index case is
an artifact of the arena encoding and cannot arise through the API. -/
def bindAll (bind1 : Net → Nat → Net × Option PyErr) (c : Chip) (ids : List Nat) (j : Nat) :
    Chip × Option PyErr :=
  match ids with
  | [] => (c, none)
  | i :: rest =>
    match c.nets[i]? with
    | none => (c, some (.attributeError "dangling net index"))
    | some net =>
      match bind1 net j with
      | (_, some e) => (c, some e)
      | (net1, none) => bindAll bind1 { c with nets := c.nets.set i net1 } rest j

/-- _Instance.__init__ (lines 116-139): the instance is appended to
chip.instances first (line 121), then the arity checks run; the error path
of a failed arity check reads self.name, an attribute _Instance never sets,
so it raises AttributeError. Then the input nets are bound as sinks and the
output nets as sources, in order, stopping at the first exception. Returns
the chip state after the call together with the exception if one was
raised. -/
def instInit (component : Component) (c : Chip) (inputs outputs : List Nat) (pyId : Nat) :
    Chip × Option PyErr :=
  let idx := c.instances.length
  let c1 : Chip :=
    { c with instances := c.instances ++ [⟨pyId, component, inputs, outputs⟩] }
  if component.inputs.length ≠ inputs.length then
    (c1, some (.attributeError "_Instance object has no attribute name"))
  else if component.outputs.length ≠ outputs.length then
    (c1, some (.attributeError "_Instance object has no attribute name"))
  else
    match bindAll bindSink c1 inputs idx with
    | (c2, some e) => (c2, some e)
    | (c2, none) => bindAll bindSource c2 outputs idx

/-- Validation of one element of chip.wires (lines 32-36): i.source is
checked first, then i.sink. -/
def checkWire (c : Chip) (i : Nat) : Option PyErr :=
  match c.nets[i]? with
  | none => some (.attributeError "dangling net index")
  | some net =>
    match net.getSource with
    | .error e => some e
    | .ok none => some (.c2chip ("wire " ++ net.name ++ " has no source"))
    | .ok (some _) =>
      match net.getSink with
      | .error e => some e
      | .ok none => some (.c2chip ("wire " ++ net.name ++ " has no sink"))
      | .ok (some _) => none

/-- Validation of one element of chip.inputs (lines 38-40). -/
def checkInput (c : Chip) (i : Nat) : Option PyErr :=
  match c.nets[i]? with
  | none => some (.attributeError "dangling net index")
  | some net =>
    match net.getSink with
    | .error e => some e
    | .ok none => some (.c2chip ("input " ++ net.name ++ " has no sink"))
    | .ok (some _) => none

/-- Validation of one element of chip.outputs (lines 42-44). -/
def checkOutput (c : Chip) (i : Nat) : Option PyErr :=
  match c.nets[i]? with
  | none => some (.attributeError "dangling net index")
  | some net =>
    match net.getSource with
    | .error e => some e
    | .ok none => some (.c2chip ("output " ++ net.name ++ " has no source"))
    | .ok (some _) => none

/-- Run a per-element check over a list, returning the first exception. -/
def checkList (f : Nat → Option PyErr) : List Nat → Option PyErr
  | [] => none
  | i :: rest =>
    match f i with
    | some e => some e
    | none => checkList f rest

/-- The three validation loops of generate_verilog in order: wires, then
inputs, then outputs, raising at the first incomplete net. -/
def validateChip (c : Chip) : Option PyErr :=
  match checkList (checkWire c) c.wires with
  | some e => some e
  | none =>
    match checkList (checkInput c) c.inputs with
    | some e => some e
    | none => checkList (checkOutput c) c.outputs

/-- Name of the net at an arena index, for emission. -/
def netName (c : Chip) (i : Nat) : String :=
  match c.nets[i]? with
  | some net => net.name
  | none => ""

/-- Lines 48-51: the three port declarations for one boundary input. -/
def inputTriple (n : String) : String :=
  "  input  [15:0] " ++ n ++ ";\n" ++
  "  input  [15:0] " ++ n ++ "_stb;\n" ++
  "  output [15:0] " ++ n ++ "_ack;\n"

/-- Lines 52-55: the three port declarations for one boundary output. -/
def outputTriple (n : String) : String :=
  "  output [15:0] " ++ n ++ ";\n" ++
  "  output [15:0] " ++ n ++ "_stb;\n" ++
  "  input  [15:0] " ++ n ++ "_ack;\n"

/-- Lines 56-59: the three wire declarations for one internal net. -/
def wireTriple (n : String) : String :=
  "  wire   [15:0] " ++ n ++ ";\n" ++
  "  wire   [15:0] " ++ n ++ "_stb;\n" ++
  "  wire   [15:0] " ++ n ++ "_ack;\n"

/-- Lines 63-71: the port connection names of one instance, each net
contributing its data, strobe and acknowledge names in order. -/
def portList (c : Chip) (ids : List Nat) : List String :=
  (ids.map (fun i => [netName c i, netName c i ++ "_stb", netName c i ++ "_ack"])).flatten

/-- Lines 60-73: the instantiation statement for one instance; the emitted
name is id(instance) followed by the component name. -/
def instStatement (c : Chip) (inst : Inst) : String :=
  "  module " ++ toString inst.pyId ++ "_" ++ inst.component.name ++ " " ++
    inst.component.name ++ "(\n    " ++
  String.intercalate ",\n    " (portList c inst.inputs ++ portList c inst.outputs) ++
  ");\n"

/-- Lines 47-74: the full text written to the output file on success. -/
def moduleText (c : Chip) : String :=
  "module " ++ c.name ++ ";\n" ++
  String.join (c.inputs.map (fun i => inputTriple (netName c i))) ++
  String.join (c.outputs.map (fun i => outputTriple (netName c i))) ++
  String.join (c.wires.map (fun i => wireTriple (netName c i))) ++
  String.join (c.instances.map (fun inst => instStatement c inst)) ++
  "endmodule\n"

/-- Chip.generate_verilog (lines 28-75): validate, and only if no exception
was raised open the file and write the module text. An error result means
the exception propagated before the file was opened, so no output exists. -/
def generate_verilog (c : Chip) : Except PyErr String :=
  match validateChip c with
  | some e => .error e
  | none => .ok (moduleText c)

/-- A call to generate_verilog paired with the chip state after the call:
the method only reads self fields (its writes go to the output file), so
the post-state is the pre-state. -/
def generateVerilogCall (c : Chip) : Except PyErr String × Chip :=
  (generate_verilog c, c)

/-- Invariant I2 of the spec, per net: an internal wire is incomplete when
its source or sink is unbound, a boundary input when its sink is unbound, a
boundary output when its source is unbound. -/
def Net.violatesI2 : Net → Bool
  | .wire _ s sk => s.isNone || sk.isNone
  | .input _ sk => sk.isNone
  | .output _ s => s.isNone

/-- Whether the arena slot at index i holds a Wire net. -/
def isWireAt (c : Chip) (i : Nat) : Bool :=
  match c.nets[i]? with
  | some (.wire _ _ _) => true
  | _ => false

/-- Whether the arena slot at index i holds an Input net. -/
def isInputAt (c : Chip) (i : Nat) : Bool :=
  match c.nets[i]? with
  | some (.input _ _) => true
  | _ => false

/-- Whether the arena slot at index i holds an Output net. -/
def isOutputAt (c : Chip) (i : Nat) : Bool :=
  match c.nets[i]? with
  | some (.output _ _) => true
  | _ => false

/-- Well-formedness of the arena encoding: every index in chip.wires points
at a Wire net, every index in chip.inputs at an Input net, and every index
in chip.outputs at an Output net. Every chip built through the API
constructors satisfies this by construction. -/
def Chip.wf (c : Chip) : Bool :=
  c.wires.all (isWireAt c) && c.inputs.all (isInputAt c) && c.outputs.all (isOutputAt c)

/-- Whether the net at arena index i violates invariant I2. -/
def incompleteAt (c : Chip) (i : Nat) : Bool :=
  match c.nets[i]? with
  | some net => net.violatesI2
  | none => false

/-- Whether some net owned by the chip violates invariant I2. -/
def hasIncompleteNet (c : Chip) : Bool :=
  c.wires.any (incompleteAt c) || c.inputs.any (incompleteAt c) || c.outputs.any (incompleteAt c)

/-- Modelled from the spec: the diagnostic entry the spec expects for one
incomplete net, naming the net, the missing slot and the kind; none for a
complete net. -/
def netViolationMsg : Net → Option String
  | .wire n s sk =>
    if s.isNone then some ("wire " ++ n ++ " has no source")
    else if sk.isNone then some ("wire " ++ n ++ " has no sink")
    else none
  | .input n sk => if sk.isNone then some ("input " ++ n ++ " has no sink") else none
  | .output n s => if s.isNone then some ("output " ++ n ++ " has no source") else none

/-- Modelled from the spec: the full violation list the spec expects an
IncompleteNetGraph failure to carry, one entry per incomplete owned net, in
check order. -/
def specViolationList (c : Chip) : List String :=
  c.wires.filterMap (fun i => (c.nets[i]?).bind netViolationMsg) ++
  c.inputs.filterMap (fun i => (c.nets[i]?).bind netViolationMsg) ++
  c.outputs.filterMap (fun i => (c.nets[i]?).bind netViolationMsg)

/-- Whether a raised exception is the AlreadyBound connection error of the
spec, which api.py realises as a C2CHIPError with an allready message. -/
def isAlreadyBoundErr : Option PyErr → Bool
  | some (.c2chip _) => true
  | _ => false

/-- Modelled from the spec: the data, strobe and acknowledge signal names of
one handshake channel, in that order. -/
def specChannelNames (n : String) : List String :=
  [n, n ++ "_stb", n ++ "_ack"]

/-- Modelled from the spec: the boundary input channel declaration, a 16 bit
data input, a 16 bit strobe input and a 16 bit acknowledge output. -/
def specInputDecl (n : String) : String :=
  "  input  [15:0] " ++ n ++ ";\n" ++
  "  input  [15:0] " ++ n ++ "_stb;\n" ++
  "  output [15:0] " ++ n ++ "_ack;\n"

/-- Modelled from the spec: the boundary output channel declaration, the
mirrored triple of the boundary input one. -/
def specOutputDecl (n : String) : String :=
  "  output [15:0] " ++ n ++ ";\n" ++
  "  output [15:0] " ++ n ++ "_stb;\n" ++
  "  input  [15:0] " ++ n ++ "_ack;\n"

/-- Modelled from the spec: the internal net declaration, a triple of 16 bit
wires. -/
def specWireDecl (n : String) : String :=
  "  wire   [15:0] " ++ n ++ ";\n" ++
  "  wire   [15:0] " ++ n ++ "_stb;\n" ++
  "  wire   [15:0] " ++ n ++ "_ack;\n"

/-- Modelled from the spec: the emitted module text as the spec describes
it, one module named after the chip holding, in order, the boundary input
triples in creation order, the boundary output triples in creation order,
the internal net triples, one instantiation statement per instance in
registration order whose connection list is each input net channel followed
by each output net channel, then the closing marker. -/
def specEmittedText (c : Chip) : String :=
  "module " ++ c.name ++ ";\n" ++
  String.join ((c.inputs.map (netName c)).map specInputDecl) ++
  String.join ((c.outputs.map (netName c)).map specOutputDecl) ++
  String.join ((c.wires.map (netName c)).map specWireDecl) ++
  String.join (c.instances.map (fun inst =>
    "  module " ++ toString inst.pyId ++ "_" ++ inst.component.name ++ " " ++
      inst.component.name ++ "(\n    " ++
    String.intercalate ",\n    "
      (((inst.inputs ++ inst.outputs).map (fun i => specChannelNames (netName c i))).flatten) ++
    ");\n")) ++
  "endmodule\n"

/-- An instance with its pyId field scrubbed, to state that two chips agree
on everything except the memory addresses of their instances. -/
def erasePyId (inst : Inst) : Inst :=
  { inst with pyId := 0 }

/-- The Adder descriptor of the end to end scenario: two input ports, one
output port. -/
def adderComp : Component :=
  ⟨"Adder", ["a", "b"], ["z"]⟩

/-- The adder chip of the end to end scenario: boundary inputs a and b,
boundary output sum, one Adder instance bound positionally. -/
def adderChip : Chip :=
  let p1 := Input.init (Chip.init "adder_chip") "a"
  let p2 := Input.init p1.1 "b"
  let p3 := Output.init p2.1 "sum"
  (instInit adderComp p3.1 [p1.2, p2.2] [p3.2] 42).1

/-- A chip with a single boundary input that has no sink. -/
def oneIncompleteChip : Chip :=
  (Input.init (Chip.init "top") "a").1

/-- A chip with two boundary inputs, both without a sink. -/
def twoIncompleteChip : Chip :=
  (Input.init (Input.init (Chip.init "top") "a").1 "b").1

/-- A chip holding only an unbound boundary output named z, the target of a
construction attempt with too few supplied inputs. -/
def arityChip : Chip :=
  (Output.init (Chip.init "top") "z").1

/-- A one input, no output component for the rollback scenario. -/
def compOne : Component :=
  ⟨"CompOne", ["p"], []⟩

/-- A two input, no output component for the rollback scenario. -/
def compTwo : Component :=
  ⟨"CompTwo", ["p", "q"], []⟩

/-- Chip for the rollback scenario: boundary inputs a (index 0) and b
(index 1), both initially unbound. -/
def rollbackChip : Chip :=
  (Input.init (Input.init (Chip.init "top") "a").1 "b").1

/-- The rollback scenario: a first instance takes net b, so b is bound;
then a second instance asks for nets a and b, binds a first and fails on
b. The pair holds the chip state after the failed call and the exception. -/
def rollbackAttempt : Chip × Option PyErr :=
  instInit compTwo (instInit compOne rollbackChip [1] [] 11).1 [0, 1] [] 22

/-- A one input, no output component, for the id naming scenario. -/
def bufComp : Component :=
  ⟨"Buf", ["p"], []⟩

/-- The same one instance netlist built with two different values of
id(instance): boundary input a feeding one Buf instance. -/
def chipWithPid (pid : Nat) : Chip :=
  let p := Input.init (Chip.init "top") "a"
  (instInit bufComp p.1 [p.2] [] pid).1

/-- A no input, one output component, for the wrong variant bind scenario. -/
def bufOutComp : Component :=
  ⟨"Buf", [], ["q"]⟩

/-- A chip with one boundary input a, used as the output net of a
construction attempt so that a driver bind is tried on an Input net. -/
def inputOnlyChip : Chip :=
  (Input.init (Chip.init "top") "a").1

/-- A complete net produces no diagnostic entry and an incomplete one
produces exactly one; the two spec-side notions agree per net. -/
lemma netViolationMsg_eq_none (net : Net) :
    netViolationMsg net = none ↔ net.violatesI2 = false := by
  cases net with
  | wire n s sk => cases s <;> cases sk <;> simp [netViolationMsg, Net.violatesI2]
  | input n sk => cases sk <;> simp [netViolationMsg, Net.violatesI2]
  | output n s => cases s <;> simp [netViolationMsg, Net.violatesI2]

/-- Per arena slot, absence of a diagnostic entry coincides with the slot
not violating I2. -/
lemma slotMsg_eq_none (c : Chip) (i : Nat) :
    (c.nets[i]?).bind netViolationMsg = none ↔ incompleteAt c i = false := by
  cases h : c.nets[i]? with
  | none => simp [incompleteAt, h]
  | some net => simp [incompleteAt, h, netViolationMsg_eq_none]

/-- The spec violation list is empty exactly when no owned net violates
invariant I2. -/
lemma specViolationList_eq_nil (c : Chip) :
    specViolationList c = [] ↔ hasIncompleteNet c = false := by
  simp only [specViolationList, hasIncompleteNet, List.append_eq_nil,
    List.filterMap_eq_nil_iff, Bool.or_eq_false_iff, List.any_eq_false, slotMsg_eq_none,
    Bool.not_eq_true]

/-- On a wire slot, the validation check returns exactly the diagnostic
entry of that slot, wrapped as a C2CHIPError. -/
lemma checkWire_eq (c : Chip) (i : Nat) (h : isWireAt c i = true) :
    checkWire c i = ((c.nets[i]?).bind netViolationMsg).map PyErr.c2chip := by
  unfold isWireAt at h
  cases h0 : c.nets[i]? with
  | none => rw [h0] at h; simp at h
  | some net =>
    cases net with
    | wire n s sk =>
      cases s <;> cases sk <;>
        simp [checkWire, h0, netViolationMsg, Net.getSource, Net.getSink, Net.name]
    | input n sk => rw [h0] at h; simp at h
    | output n s => rw [h0] at h; simp at h

/-- On an input slot, the validation check returns exactly the diagnostic
entry of that slot, wrapped as a C2CHIPError. -/
lemma checkInput_eq (c : Chip) (i : Nat) (h : isInputAt c i = true) :
    checkInput c i = ((c.nets[i]?).bind netViolationMsg).map PyErr.c2chip := by
  unfold isInputAt at h
  cases h0 : c.nets[i]? with
  | none => rw [h0] at h; simp at h
  | some net =>
    cases net with
    | wire n s sk => rw [h0] at h; simp at h
    | input n sk =>
      cases sk <;> simp [checkInput, h0, netViolationMsg, Net.getSink, Net.name]
    | output n s => rw [h0] at h; simp at h

/-- On an output slot, the validation check returns exactly the diagnostic
entry of that slot, wrapped as a C2CHIPError. -/
lemma checkOutput_eq (c : Chip) (i : Nat) (h : isOutputAt c i = true) :
    checkOutput c i = ((c.nets[i]?).bind netViolationMsg).map PyErr.c2chip := by
  unfold isOutputAt at h
  cases h0 : c.nets[i]? with
  | none => rw [h0] at h; simp at h
  | some net =>
    cases net with
    | wire n s sk => rw [h0] at h; simp at h
    | input n sk => rw [h0] at h; simp at h
    | output n s =>
      cases s <;> simp [checkOutput, h0, netViolationMsg, Net.getSource, Net.name]

/-- A check loop whose per element check agrees with a diagnostic function
returns the first diagnostic of the list, wrapped as a C2CHIPError. -/
lemma checkList_eq_head (f : Nat → Option PyErr) (g : Nat → Option String) (l : List Nat)
    (h : ∀ i ∈ l, f i = (g i).map PyErr.c2chip) :
    checkList f l = ((l.filterMap g).head?).map PyErr.c2chip := by
  induction l with
  | nil => rfl
  | cons i rest ih =>
    have hi : f i = (g i).map PyErr.c2chip := h i (by simp)
    have hrest : ∀ j ∈ rest, f j = (g j).map PyErr.c2chip := fun j hj => h j (by simp [hj])
    cases hg : g i with
    | some m => simp [checkList, hi, hg]
    | none => simp [checkList, hi, hg, ih hrest]

/-- On a well formed chip the three validation loops together return the
head of the spec violation list, wrapped as a C2CHIPError: the code reports
the first violation in check order and only that one. -/
lemma validateChip_eq_head (c : Chip) (h : c.wf = true) :
    validateChip c = ((specViolationList c).head?).map PyErr.c2chip := by
  unfold Chip.wf at h
  simp only [Bool.and_eq_true] at h
  obtain ⟨⟨hw, hi⟩, ho⟩ := h
  have hw1 : checkList (checkWire c) c.wires =
      ((c.wires.filterMap (fun i => (c.nets[i]?).bind netViolationMsg)).head?).map PyErr.c2chip :=
    checkList_eq_head _ _ _ (fun i hmem =>
      checkWire_eq c i (by exact List.all_eq_true.mp hw i hmem))
  have hi1 : checkList (checkInput c) c.inputs =
      ((c.inputs.filterMap (fun i => (c.nets[i]?).bind netViolationMsg)).head?).map PyErr.c2chip :=
    checkList_eq_head _ _ _ (fun i hmem =>
      checkInput_eq c i (by exact List.all_eq_true.mp hi i hmem))
  have ho1 : checkList (checkOutput c) c.outputs =
      ((c.outputs.filterMap (fun i => (c.nets[i]?).bind netViolationMsg)).head?).map PyErr.c2chip :=
    checkList_eq_head _ _ _ (fun i hmem =>
      checkOutput_eq c i (by exact List.all_eq_true.mp ho i hmem))
  unfold validateChip specViolationList
  cases hW : c.wires.filterMap (fun i => (c.nets[i]?).bind netViolationMsg) with
  | cons m rest => simp [hw1, hW]
  | nil =>
    cases hI : c.inputs.filterMap (fun i => (c.nets[i]?).bind netViolationMsg) with
    | cons m rest => simp [hw1, hi1, hW, hI]
    | nil => simp [hw1, hi1, ho1, hW, hI]

/-- The emission routine produces exactly the text the spec describes; the
two texts are assembled differently but coincide for every chip. -/
lemma moduleText_eq_spec (c : Chip) : moduleText c = specEmittedText c := by
  unfold moduleText specEmittedText
  congr 1
  · congr 1
    · congr 1
      · congr 1
        · congr 1
          · simp [List.map_map, Function.comp_def, inputTriple, specInputDecl]
        · simp [List.map_map, Function.comp_def, outputTriple, specOutputDecl]
      · simp [List.map_map, Function.comp_def, wireTriple, specWireDecl]
    · congr 1
      refine List.map_congr_left (fun inst _ => ?_)
      unfold instStatement
      congr 2
      simp [portList, specChannelNames, List.map_append]

/-- C1: on a well formed chip, generate_verilog raises the incompleteness
C2CHIPError and produces no output exactly when some owned net violates
invariant I2, and when every required slot is bound it succeeds and emits
the module text. -/
theorem elaborate_fails_iff_incomplete (c : Chip) (h : c.wf = true) :
    ((∃ m, generate_verilog c = Except.error (PyErr.c2chip m)) ↔ hasIncompleteNet c = true) ∧
    (hasIncompleteNet c = false → generate_verilog c = Except.ok (moduleText c)) := by
  have hv := validateChip_eq_head c h
  cases hL : specViolationList c with
  | nil =>
    have hnone : validateChip c = none := by rw [hv, hL]; rfl
    have hinc : hasIncompleteNet c = false := (specViolationList_eq_nil c).mp hL
    refine ⟨⟨?_, ?_⟩, ?_⟩
    · rintro ⟨m, hm⟩
      unfold generate_verilog at hm
      rw [hnone] at hm
      cases hm
    · intro htrue
      rw [hinc] at htrue
      cases htrue
    · intro _
      unfold generate_verilog
      rw [hnone]
  | cons m rest =>
    have hsome : validateChip c = some (PyErr.c2chip m) := by rw [hv, hL]; rfl
    have hne : ¬ hasIncompleteNet c = false := fun hf => by
      have := (specViolationList_eq_nil c).mpr hf
      rw [hL] at this
      cases this
    have hinc : hasIncompleteNet c = true := by
      cases hb : hasIncompleteNet c with
      | false => exact absurd hb hne
      | true => rfl
    refine ⟨⟨fun _ => hinc, fun _ => ⟨m, ?_⟩⟩, fun hf => absurd hf hne⟩
    unfold generate_verilog
    rw [hsome]

/-- Witness for C1 at a chip whose single boundary input has no sink. -/
theorem elaborate_fails_iff_incomplete_witness :
    oneIncompleteChip.wf = true ∧
    (∃ m, generate_verilog oneIncompleteChip = Except.error (PyErr.c2chip m)) :=
  ⟨by decide, (elaborate_fails_iff_incomplete oneIncompleteChip (by decide)).1.mpr (by decide)⟩

/-- C2: arity mismatch during instance construction. The code appends the
instance to chip.instances before checking the arity, and the error path
reads the missing attribute self.name, so the construction fails with an
AttributeError rather than the arity C2CHIPError and the instance is still
registered afterward: registration is not atomic with validation. -/
theorem arity_mismatch_code_behavior :
    (instInit adderComp arityChip [] [0] 99).2 =
      some (PyErr.attributeError "_Instance object has no attribute name") ∧
    (instInit adderComp arityChip [] [0] 99).1.instances =
      [⟨99, adderComp, [], [0]⟩] := by
  decide

/-- C3: a failed bind does not roll the construction back. After the second
construction fails on net b, both instances are registered and net a keeps
the sink bound during the failed attempt; the chip is not left as it was
before the attempt. -/
theorem already_bound_no_rollback :
    rollbackAttempt.2 = some (PyErr.c2chip "b allready has a sink") ∧
    rollbackAttempt.1.instances.length = 2 ∧
    rollbackAttempt.1.nets = [Net.input "a" (some 1), Net.input "b" (some 0)] := by
  decide

/-- C4: single assignment per slot. Binding a sink or source slot that is
unbound and present on the variant succeeds and sets exactly that slot;
binding an already bound slot fails with the allready C2CHIPError and
leaves the net unchanged. -/
theorem bind_single_assignment (net : Net) (j : Nat) :
    (net.getSink = Except.ok none →
      ∃ net1, bindSink net j = (net1, none) ∧ net1.getSink = Except.ok (some j) ∧
        net1.getSource = net.getSource ∧ net1.name = net.name) ∧
    (∀ k, net.getSink = Except.ok (some k) →
      bindSink net j = (net, some (PyErr.c2chip (net.name ++ " allready has a sink")))) ∧
    (net.getSource = Except.ok none →
      ∃ net1, bindSource net j = (net1, none) ∧ net1.getSource = Except.ok (some j) ∧
        net1.getSink = net.getSink ∧ net1.name = net.name) ∧
    (∀ k, net.getSource = Except.ok (some k) →
      bindSource net j = (net, some (PyErr.c2chip (net.name ++ " has allready has a source")))) := by
  cases net with
  | wire n s sk =>
    refine ⟨?_, ?_, ?_, ?_⟩
    · intro h
      cases sk with
      | none => exact ⟨.wire n s (some j), rfl, rfl, rfl, rfl⟩
      | some k => simp [Net.getSink] at h
    · intro k hk
      cases sk with
      | none => simp [Net.getSink] at hk
      | some k2 => rfl
    · intro h
      cases s with
      | none => exact ⟨.wire n (some j) sk, rfl, rfl, rfl, rfl⟩
      | some k => simp [Net.getSource] at h
    · intro k hk
      cases s with
      | none => simp [Net.getSource] at hk
      | some k2 => rfl
  | input n sk =>
    refine ⟨?_, ?_, ?_, ?_⟩
    · intro h
      cases sk with
      | none => exact ⟨.input n (some j), rfl, rfl, rfl, rfl⟩
      | some k => simp [Net.getSink] at h
    · intro k hk
      cases sk with
      | none => simp [Net.getSink] at hk
      | some k2 => rfl
    · intro h
      simp [Net.getSource] at h
    · intro k hk
      simp [Net.getSource] at hk
  | output n s =>
    refine ⟨?_, ?_, ?_, ?_⟩
    · intro h
      simp [Net.getSink] at h
    · intro k hk
      simp [Net.getSink] at hk
    · intro h
      cases s with
      | none => exact ⟨.output n (some j), rfl, rfl, rfl, rfl⟩
      | some k => simp [Net.getSource] at h
    · intro k hk
      cases s with
      | none => simp [Net.getSource] at hk
      | some k2 => rfl

/-- Witness for C4 at a wire whose sink is already bound. -/
theorem bind_single_assignment_witness :
    bindSink (Net.wire "w" none (some 1)) 0 =
      (Net.wire "w" none (some 1), some (PyErr.c2chip "w allready has a sink")) := by
  have h := (bind_single_assignment (Net.wire "w" none (some 1)) 0).2.1 1 rfl
  rw [h]
  decide

/-- C5 counterexample: with two incomplete boundary inputs a and b, the
raised error carries the single message for a only, while the spec demands
one entry per incomplete net, here two distinct entries. -/
theorem validate_short_circuits_counterexample :
    generate_verilog twoIncompleteChip = Except.error (PyErr.c2chip "input a has no sink") ∧
    specViolationList twoIncompleteChip = ["input a has no sink", "input b has no sink"] ∧
    "input a has no sink" ≠ "input b has no sink" := by
  decide

/-- C5 amended: validation short circuits; on a well formed chip whose
violation list is nonempty, generate_verilog raises a C2CHIPError carrying
exactly the first violation in check order, wires (source before sink),
then inputs, then outputs. -/
theorem first_violation_only (c : Chip) (h : c.wf = true) (m : String) (rest : List String)
    (hl : specViolationList c = m :: rest) :
    generate_verilog c = Except.error (PyErr.c2chip m) := by
  unfold generate_verilog
  rw [validateChip_eq_head c h, hl]
  rfl

/-- Witness for the amended C5 at the chip with two incomplete inputs. -/
theorem first_violation_only_witness :
    twoIncompleteChip.wf = true ∧
    specViolationList twoIncompleteChip = "input a has no sink" :: ["input b has no sink"] ∧
    generate_verilog twoIncompleteChip = Except.error (PyErr.c2chip "input a has no sink") :=
  ⟨by decide, by decide,
    first_violation_only twoIncompleteChip (by decide)
      "input a has no sink" ["input b has no sink"] (by decide)⟩

/-- C6: on a well formed, complete chip the emitted text is exactly the
module described by the spec: header named after the chip, boundary input
triples in creation order, boundary output triples, internal net triples,
one instantiation statement per instance in registration order whose
connection list is each input channel followed by each output channel, and
the closing marker. -/
theorem emitted_text_structure (c : Chip) (h1 : c.wf = true)
    (h2 : hasIncompleteNet c = false) :
    generate_verilog c = Except.ok (specEmittedText c) := by
  have hnil : specViolationList c = [] := (specViolationList_eq_nil c).mpr h2
  unfold generate_verilog
  rw [validateChip_eq_head c h1, hnil]
  simp [moduleText_eq_spec]

/-- Witness for C6 at the adder chip of the end to end scenario. -/
theorem emitted_text_structure_witness :
    adderChip.wf = true ∧ hasIncompleteNet adderChip = false ∧
    generate_verilog adderChip = Except.ok (specEmittedText adderChip) :=
  ⟨by decide, by decide, emitted_text_structure adderChip (by decide) (by decide)⟩

/-- C7: the emitted instance name depends on id(instance), a transient
memory address. Two builds of the same netlist that differ only in the
memory addresses handed out by the allocator agree on every spec level
observable, yet elaborate to different texts, so the output is not
reproducible across runs and the name is not derived from the registration
index. -/
theorem instance_name_uses_memory_address :
    ((chipWithPid 100).name = (chipWithPid 200).name ∧
     (chipWithPid 100).nets = (chipWithPid 200).nets ∧
     (chipWithPid 100).wires = (chipWithPid 200).wires ∧
     (chipWithPid 100).inputs = (chipWithPid 200).inputs ∧
     (chipWithPid 100).outputs = (chipWithPid 200).outputs ∧
     (chipWithPid 100).instances.map erasePyId = (chipWithPid 200).instances.map erasePyId) ∧
    generate_verilog (chipWithPid 100) ≠ generate_verilog (chipWithPid 200) := by
  refine ⟨by decide, fun hcontra => ?_⟩
  exact absurd (congrArg Except.toOption hcontra) (by decide)

/-- C8 counterexample: using the boundary input a as an instance output
makes the construction attempt a driver bind on an Input net; it fails with
an AttributeError for the missing source attribute, not with the allready
C2CHIPError the claim names. -/
theorem bind_driver_on_input_counterexample :
    (instInit bufOutComp inputOnlyChip [] [0] 5).2 =
      some (PyErr.attributeError "Input object has no attribute source") ∧
    isAlreadyBoundErr (instInit bufOutComp inputOnlyChip [] [0] 5).2 = false := by
  decide

/-- C8 amended: a driver bind on an Input net always fails, but with the
AttributeError for the missing source attribute, and leaves the net
unchanged. -/
theorem bind_driver_on_input_attribute_error (n : String) (sk : Option Nat) (j : Nat) :
    bindSource (Net.input n sk) j =
      (Net.input n sk, some (PyErr.attributeError "Input object has no attribute source")) :=
  rfl

/-- C9: generate_verilog reads the chip and mutates nothing, so the state
after a call is the state before it and a second call on the unchanged chip
returns the identical result, byte for byte. -/
theorem generate_verilog_deterministic (c : Chip) :
    (generateVerilogCall c).2 = c ∧
    (generateVerilogCall (generateVerilogCall c).2).1 = (generateVerilogCall c).1 :=
  ⟨rfl, rfl⟩

/-- C10: a freshly created chip with no instances and no nets elaborates
successfully to exactly the module header line naming the chip followed by
the closing endmodule line. -/
theorem empty_chip_module_text (name : String) :
    generate_verilog (Chip.init name) =
      Except.ok ("module " ++ name ++ ";\n" ++ "endmodule\n") := by
  unfold generate_verilog validateChip moduleText Chip.init
  simp [checkList, String.join, String.append_empty]

end ChipsApi
